import Mathlib

/-!
Verification of the authentication and token-validation core of the
Expense-Tracker repository (FastAPI backend), shallowly embedded in Lean 4.

Sources embedded:
- app/auth/auth.py      : password hashing, user lookup, authentication,
                          JWT access-token creation
- app/routes/auth.py    : the login route (token issuance path)
- app/routes/expense.py : get_current_user (request identity resolution)
                          and the per-user expense CRUD routes

External libraries are modelled symbolically:
- passlib bcrypt (CryptContext): a hash value is represented as the pair of
  a per-call random salt and the hashed plaintext; verification compares
  the plaintext embedded in the hash (ideal one-way salted hash).
- python-jose (jwt.encode / jwt.decode): a token is either unparseable
  garbage or a signed claim set tagged with the signing secret; decoding
  with a key succeeds exactly when the key equals the signing secret
  (ideal unforgeable MAC).  jwt.decode validates the exp claim itself
  (strict comparison, zero leeway) at its own clock read, before the
  explicit expiry check in get_current_user runs at a later clock read;
  the two clock reads are therefore separate parameters below.

Time is modelled in whole seconds (JWT exp is an integer NumericDate).
-/

namespace ExpenseTracker

/-- Model of a bcrypt hash string produced by passlib.  The salt is drawn
fresh per call in the real library; here it is an explicit argument.  The
hash is one-way in the model: nothing below ever projects `plain` except
the verifier. -/
structure PasswordHash where
  salt : Nat
  plain : String
deriving DecidableEq, Repr

/-- auth/auth.py verify_password: pwd_context.verify(plain_password,
hashed_password) — true iff the plaintext matches the one embedded in the
hash (bcrypt re-hashes with the embedded salt and compares; symbolically,
compare the plaintexts). -/
def verify_password (plain_password : String) (hashed_password : PasswordHash) : Bool :=
  plain_password == hashed_password.plain

/-- auth/auth.py get_password_hash: pwd_context.hash(password) with a
fresh random salt, here passed explicitly. -/
def get_password_hash (salt : Nat) (password : String) : PasswordHash :=
  ⟨salt, password⟩

/-- models/user.py User: only the fields the authentication core reads
(id, username, email, hashed_password); the optional profile columns are
never consulted by any embedded operation. -/
structure User where
  id : Nat
  username : String
  email : String
  hashed_password : PasswordHash
deriving DecidableEq, Repr

/-- auth/auth.py get_user_by_username:
db.query(User).filter(User.username == username).first().
The directory state is the list of user rows. -/
def get_user_by_username (db : List User) (username : String) : Option User :=
  db.find? (fun u => u.username == username)

/-- auth/auth.py authenticate_user: look up by username, return None if
absent, None if the password does not verify, else the user. -/
def authenticate_user (db : List User) (username password : String) : Option User :=
  match get_user_by_username db username with
  | none => none
  | some user =>
    if verify_password password user.hashed_password then some user else none

/-- auth/auth.py SECRET_KEY = os.getenv with this default. -/
def SECRET_KEY : String := "your_secret_key"

/-- auth/auth.py ALGORITHM. -/
def ALGORITHM : String := "HS256"

/-- auth/auth.py ACCESS_TOKEN_EXPIRE_MINUTES = int(os.getenv(..., 30)):
the environment default. -/
def ACCESS_TOKEN_EXPIRE_MINUTES : Nat := 30

/-- The claim set of a token as read by get_current_user: payload.get of
sub and of exp, each possibly absent.  exp is an integer NumericDate in
seconds. -/
structure Payload where
  sub : Option String
  exp : Option Nat
deriving DecidableEq, Repr

/-- Model of a JWT string: either a string that does not parse as a JWT at
all, or a well-formed token carrying a claim set and signed with a
secret. -/
inductive Token where
  | garbage : Token
  | signed (payload : Payload) (secret : String) : Token
deriving DecidableEq, Repr

/-- The errors jose.jwt.decode can raise that this code catches as
JWTError: parse or signature failure, and ExpiredSignatureError from the
decoder-internal exp validation. -/
inductive JoseError where
  | malformed : JoseError
  | expiredSignature : JoseError
deriving DecidableEq, Repr

/-- Model of jose.jwt.decode(token, key, algorithms): verify the
signature first (wrong key, tampering, or unparseable input raise a
JWTError); then validate the exp claim when present, with zero leeway and
strict comparison (exp < now raises ExpiredSignatureError) at the decode
call clock read `now`. -/
def joseDecode (token : Token) (key : String) (now : Nat) : Except JoseError Payload :=
  match token with
  | .garbage => .error .malformed
  | .signed payload secret =>
    if secret == key then
      match payload.exp with
      | some e => if e < now then .error .expiredSignature else .ok payload
      | none => .ok payload
    else .error .malformed

/-- The expression `expires_delta if expires_delta else timedelta(minutes=15)`
from auth/auth.py create_access_token, factored out so theorems can name
it: a missing argument and a zero timedelta (both falsy in Python) yield
the 15-minute default, any other value is used as given, in seconds. -/
def effective_expires_delta (expires_delta : Option Nat) : Nat :=
  match expires_delta with
  | none => 15 * 60
  | some d => if d == 0 then 15 * 60 else d

/-- auth/auth.py create_access_token: copy the claims, set exp to now
plus the effective delta, and sign with SECRET_KEY.  `now` is the
datetime.now(timezone.utc) clock read. -/
def create_access_token (data : Payload) (expires_delta : Option Nat) (now : Nat) : Token :=
  Token.signed { data with exp := some (now + effective_expires_delta expires_delta) }
    SECRET_KEY

/-- fastapi.HTTPException as observed by the caller: status code, detail
string, and response headers. -/
structure HTTPException where
  status_code : Nat
  detail : String
  headers : List (String × String)
deriving DecidableEq, Repr

/-- routes/expense.py credentials_exception: 401, generic detail, with
the WWW-Authenticate header. -/
def credentials_exception : HTTPException :=
  ⟨401, "Could not validate credentials", [("WWW-Authenticate", "Bearer")]⟩

/-- routes/expense.py line 90: the distinct 401 raised by the explicit
expiry check, with its own detail and no headers. -/
def token_expired_exception : HTTPException :=
  ⟨401, "Token has expired", []⟩

/-- routes/auth.py line 136: login failure. -/
def invalid_credentials_exception : HTTPException :=
  ⟨401, "Invalid credentials", []⟩

/-- routes/auth.py login: authenticate, 401 on failure, else issue a
token with data containing only the sub claim and no expires_delta
argument. -/
def login (db : List User) (username password : String) (now : Nat) :
    Except HTTPException Token :=
  match authenticate_user db username password with
  | none => .error invalid_credentials_exception
  | some user =>
    .ok (create_access_token { sub := some user.username, exp := none } none now)

/-- routes/expense.py get_current_user: decode the token (jose validates
signature and exp at clock read tDecode); on JWTError raise
credentials_exception; require sub and exp present; re-check expiry
explicitly at the later clock read tCheck, raising the distinct
token_expired_exception; finally look the subject up in the directory and
raise credentials_exception if absent. -/
def get_current_user (token : Token) (tDecode tCheck : Nat) (db : List User) :
    Except HTTPException User :=
  match joseDecode token SECRET_KEY tDecode with
  | .error _ => .error credentials_exception
  | .ok payload =>
    match payload.sub with
    | none => .error credentials_exception
    | some username =>
      match payload.exp with
      | none => .error credentials_exception
      | some e =>
        if e < tCheck then .error token_expired_exception
        else
          match get_user_by_username db username with
          | none => .error credentials_exception
          | some user => .ok user

/-- models/expense.py Expense row: id, user_id, amount, category,
optional description, creation timestamp.  The Python amount is a float;
no embedded operation computes with it, so it is carried as a rational. -/
structure Expense where
  id : Nat
  user_id : Nat
  amount : Rat
  category : String
  description : Option String
  date : Nat
deriving DecidableEq, Repr

/-- routes/expense.py ExpenseUpdate schema: every field optional. -/
structure ExpenseUpdate where
  amount : Option Rat
  category : Option String
  description : Option String
deriving DecidableEq, Repr

/-- routes/expense.py ExpenseResponse: the serialized shape returned to
the caller (user_id is not included; date is serialized, kept here as the
timestamp). -/
structure ExpenseResponse where
  id : Nat
  amount : Rat
  category : String
  description : Option String
  date : Nat
deriving DecidableEq, Repr

/-- routes/expense.py ExpenseResponse.from_orm. -/
def ExpenseResponse.from_orm (e : Expense) : ExpenseResponse :=
  ⟨e.id, e.amount, e.category, e.description, e.date⟩

/-- routes/expense.py line 158: expense_not_found, the 404 raised when
the per-user filtered query finds nothing. -/
def expense_not_found : HTTPException :=
  ⟨404, "Expense not found", []⟩

/-- routes/expense.py get_expenses: filter the expense table by
user_id == current_user.id, then — when category is truthy (neither None
nor the empty string) — by case-insensitive category equality, and
serialize each row. -/
def get_expenses (category : Option String) (expenses : List Expense)
    (current_user : User) : List ExpenseResponse :=
  let rows := expenses.filter (fun e => e.user_id == current_user.id)
  let rows :=
    match category with
    | none => rows
    | some c =>
      if c == "" then rows
      else rows.filter (fun e => e.category.toLower == c.toLower)
  rows.map ExpenseResponse.from_orm

/-- routes/expense.py delete_expense: find the first row with the given
id and owned by the current user; 404 leaving the table unchanged if
none; else delete that row (primary-key removal) and report success.  The
pair carries the response and the resulting expense table. -/
def delete_expense (expense_id : Nat) (expenses : List Expense)
    (current_user : User) : Except HTTPException String × List Expense :=
  match expenses.find? (fun e => e.id == expense_id && e.user_id == current_user.id) with
  | none => (.error expense_not_found, expenses)
  | some e => (.ok "Expense deleted", expenses.filter (fun x => x.id != e.id))

/-- Replace the first element satisfying p by its image under f, leaving
all other elements in place (the SQLAlchemy session mutates exactly the
row object returned by .first()). -/
def updateFirst (p : α → Bool) (f : α → α) : List α → List α
  | [] => []
  | x :: xs => if p x then f x :: xs else x :: updateFirst p f xs

/-- The in-place field mutation block of routes/expense.py update_expense
lines 199-204: each field is overwritten only when the update carries a
non-None value. -/
def applyExpenseUpdate (upd : ExpenseUpdate) (e : Expense) : Expense :=
  { e with
    amount := match upd.amount with | none => e.amount | some a => a
    category := match upd.category with | none => e.category | some c => c
    description := match upd.description with | none => e.description | some d => some d }

/-- routes/expense.py update_expense: find the first row with the given
id owned by the current user; 404 leaving the table unchanged if none;
else overwrite exactly the non-None fields of that row, commit, and
return its serialization together with the resulting table. -/
def update_expense (expense_id : Nat) (expense_update : ExpenseUpdate)
    (expenses : List Expense) (current_user : User) :
    Except HTTPException ExpenseResponse × List Expense :=
  match expenses.find? (fun e => e.id == expense_id && e.user_id == current_user.id) with
  | none => (.error expense_not_found, expenses)
  | some e =>
    (.ok (ExpenseResponse.from_orm (applyExpenseUpdate expense_update e)),
     updateFirst (fun x => x.id == expense_id && x.user_id == current_user.id)
       (applyExpenseUpdate expense_update) expenses)

/-- A concrete user row used by closed witness and counterexample
statements. -/
def aliceUser : User :=
  ⟨1, "alice", "a@x.com", get_password_hash 0 "pw123"⟩

/-! ## Claims -/

/-- Claim C1: for every directory state and every (username, password):
if no user with that username exists, authenticate returns None; if the
user exists but the password does not verify against the stored hash,
authenticate returns None; if the user exists and the password verifies,
authenticate returns the identity of that user. -/
theorem authenticate_user_spec (db : List User) (username password : String) :
    ((∀ u ∈ db, u.username ≠ username) →
      authenticate_user db username password = none)
    ∧ (∀ u, get_user_by_username db username = some u →
        (verify_password password u.hashed_password = false →
          authenticate_user db username password = none)
        ∧ (verify_password password u.hashed_password = true →
          authenticate_user db username password = some u)) := by
  refine ⟨fun habsent => ?_, fun u hu => ⟨fun hbad => ?_, fun hgood => ?_⟩⟩
  · have hnone : get_user_by_username db username = none := by
      simp only [get_user_by_username, List.find?_eq_none]
      intro u hu
      simpa using habsent u hu
    simp [authenticate_user, hnone]
  · simp [authenticate_user, hu, hbad]
  · simp [authenticate_user, hu, hgood]

/-- Witness for C1: in the concrete one-user directory, an absent
username rejects, a wrong password rejects, and the right password
returns the stored user. -/
theorem authenticate_user_spec_witness :
    authenticate_user [aliceUser] "ghost" "anything" = none
    ∧ authenticate_user [aliceUser] "alice" "wrong" = none
    ∧ authenticate_user [aliceUser] "alice" "pw123" = some aliceUser := by
  refine ⟨?_, ?_, ?_⟩
  · exact (authenticate_user_spec [aliceUser] "ghost" "anything").1
      (by intro u hu; simp [aliceUser] at hu; simp [hu])
  · exact ((authenticate_user_spec [aliceUser] "alice" "wrong").2 aliceUser
      (by decide)).1 (by decide)
  · exact ((authenticate_user_spec [aliceUser] "alice" "pw123").2 aliceUser
      (by decide)).2 (by decide)

/-- Claim C8: verifying a plaintext against the hash produced from it
succeeds, for every salt; and verifying a different plaintext against
that hash fails. -/
theorem hash_verify_roundtrip (p p1 p2 : String) (s s2 : Nat) :
    verify_password p (get_password_hash s p) = true
    ∧ (p1 ≠ p2 → verify_password p1 (get_password_hash s2 p2) = false) := by
  constructor
  · simp [verify_password, get_password_hash]
  · intro hne
    simp [verify_password, get_password_hash, hne]

/-- Claim C2: issuing a token for subject s and verifying it before its
ttl has elapsed (at the decode-time and check-time clock reads, the secret
unchanged, the subject still in the directory) yields exactly the user
record of s. -/
theorem issue_then_verify_roundtrip (s : String) (data : Payload) (d : Option Nat)
    (t tDecode tCheck : Nat) (db : List User) (u : User)
    (hsub : data.sub = some s)
    (hu : get_user_by_username db s = some u)
    (hclock : tDecode ≤ tCheck)
    (httl : tCheck < t + effective_expires_delta d) :
    get_current_user (create_access_token data d t) tDecode tCheck db = .ok u
    ∧ u.username = s := by
  have hnd : ¬ (t + effective_expires_delta d < tDecode) := by omega
  have hnc : ¬ (t + effective_expires_delta d < tCheck) := by omega
  have husername : u.username = s := by
    have hu' : db.find? (fun v => v.username == s) = some u := hu
    have hpred := List.find?_some hu'
    simpa using hpred
  refine ⟨?_, husername⟩
  simp [get_current_user, create_access_token, joseDecode, hsub, hnd, hnc, hu]

/-- Witness for C2: a token issued at time 0 for alice with the default
ttl, decoded at time 0 and checked at time 1, resolves to the alice
record. -/
theorem issue_then_verify_roundtrip_witness :
    get_current_user
        (create_access_token ⟨some "alice", none⟩ none 0) 0 1 [aliceUser]
      = .ok aliceUser
    ∧ aliceUser.username = "alice" :=
  issue_then_verify_roundtrip "alice" ⟨some "alice", none⟩ none 0 0 1
    [aliceUser] aliceUser (by decide) (by decide) (by decide)
    (by simp [effective_expires_delta])

/-- Counterexample to Claim C3 as stated: the claim requires every token
with exp <= now to be rejected as expired, but a correctly signed token
whose exp exactly equals both verification clock reads is accepted and
resolves to the user — both the decoder check and the explicit check use
strict less-than. -/
theorem expiry_boundary_accepted :
    get_current_user (Token.signed ⟨some "alice", some 100⟩ SECRET_KEY)
        100 100 [aliceUser]
      = .ok aliceUser := by
  rfl

/-- Claim C3 (amended): a well-formed, correctly signed token carrying
sub and exp is rejected with a 401 whenever exp is strictly less than the
check-time clock read: the decoder-internal validation raises the generic
credentials_exception when exp is already past at decode time, and
otherwise the explicit check raises token_expired_exception; an expiry
exactly equal to the verification time is accepted. -/
theorem expired_token_rejected (p : Payload) (s : String) (e : Nat)
    (tDecode tCheck : Nat) (db : List User)
    (hsub : p.sub = some s) (hexp : p.exp = some e)
    (h : e < tCheck) :
    get_current_user (Token.signed p SECRET_KEY) tDecode tCheck db
      = .error (if e < tDecode then credentials_exception
                else token_expired_exception) := by
  by_cases hd : e < tDecode
  · simp [get_current_user, joseDecode, hexp, hd]
  · simp [get_current_user, joseDecode, hsub, hexp, hd, h]

/-- Witness for the amended C3: a token with exp 100 decoded at 100 and
checked at 101 is rejected by the explicit check. -/
theorem expired_token_rejected_witness :
    get_current_user (Token.signed ⟨some "alice", some 100⟩ SECRET_KEY)
        100 101 [aliceUser]
      = .error (if 100 < 100 then credentials_exception
                else token_expired_exception) :=
  expired_token_rejected ⟨some "alice", some 100⟩ "alice" 100 100 101
    [aliceUser] (by decide) (by decide) (by decide)

/-- Counterexample to Claim C4 as stated: the caller can distinguish an
expired token from a malformed one.  A token whose expiry falls between
the decode-time and check-time clock reads is rejected with
token_expired_exception, while garbage is rejected with
credentials_exception, and the two HTTPException values differ (detail
and headers). -/
theorem unauthorized_rejections_distinguishable :
    get_current_user (Token.signed ⟨some "alice", some 100⟩ SECRET_KEY)
        100 101 [aliceUser]
      = .error token_expired_exception
    ∧ get_current_user Token.garbage 100 101 [aliceUser]
      = .error credentials_exception
    ∧ token_expired_exception ≠ credentials_exception :=
  ⟨rfl, rfl, by decide⟩

/-- Claim C4 (amended): every rejection of identity resolution —
malformed or wrong-signature token, missing sub or exp, expired, or
vanished subject — carries HTTP status 401 (Unauthorized); however the
expired-token path reachable when the expiry falls between the two clock
reads returns a distinct detail, so the kinds are not fully
indistinguishable. -/
theorem rejection_status_unauthorized (token : Token) (tDecode tCheck : Nat)
    (db : List User) (err : HTTPException)
    (h : get_current_user token tDecode tCheck db = .error err) :
    err.status_code = 401 := by
  unfold get_current_user at h
  repeat' split at h
  all_goals first
    | exact Except.noConfusion h
    | (injection h with h2; cases h2; rfl)

/-- Witness for the amended C4: the rejection of a garbage token has
status 401. -/
theorem rejection_status_unauthorized_witness :
    credentials_exception.status_code = 401 :=
  rejection_status_unauthorized Token.garbage 0 0 [] credentials_exception rfl

/-- Counterexample to Claim C7 as stated: ACCESS_TOKEN_EXPIRE_MINUTES is
configured as 30, yet the token issued at login for valid credentials
carries exp = now + 15 minutes, not now + 30 minutes — login never passes
the configured value to create_access_token. -/
theorem login_ignores_configured_ttl :
    ACCESS_TOKEN_EXPIRE_MINUTES = 30
    ∧ login [aliceUser] "alice" "pw123" 0
      = .ok (Token.signed ⟨some "alice", some (15 * 60)⟩ SECRET_KEY)
    ∧ 15 * 60 ≠ ACCESS_TOKEN_EXPIRE_MINUTES * 60 :=
  ⟨rfl, rfl, by decide⟩

/-- Claim C7 (amended): token issuance sets the expiry to now plus 15
minutes when no ttl is supplied; login supplies none — although
ACCESS_TOKEN_EXPIRE_MINUTES is configured (default 30 minutes), login
does not pass it, so tokens issued at login use the 15-minute default. -/
theorem login_token_default_ttl (data : Payload) (db : List User)
    (username password : String) (now : Nat) (u : User)
    (hauth : authenticate_user db username password = some u) :
    create_access_token data none now
      = Token.signed { data with exp := some (now + 15 * 60) } SECRET_KEY
    ∧ login db username password now
      = .ok (Token.signed ⟨some u.username, some (now + 15 * 60)⟩ SECRET_KEY) := by
  constructor
  · simp [create_access_token, effective_expires_delta]
  · simp [login, hauth, create_access_token, effective_expires_delta]

/-- Witness for the amended C7: logging in as alice at time 0 yields a
token expiring at 900 seconds. -/
theorem login_token_default_ttl_witness :
    create_access_token ⟨some "alice", none⟩ none 0
      = Token.signed ⟨some "alice", some (0 + 15 * 60)⟩ SECRET_KEY
    ∧ login [aliceUser] "alice" "pw123" 0
      = .ok (Token.signed ⟨some "alice", some (0 + 15 * 60)⟩ SECRET_KEY) :=
  login_token_default_ttl ⟨some "alice", none⟩ [aliceUser] "alice" "pw123" 0
    aliceUser (by decide)

/-- Claim C5: a well-formed token signed with the configured secret,
carrying sub and exp and unexpired at both clock reads, is still rejected
with the 401 credentials_exception when its subject is absent from the
directory at resolution time. -/
theorem vanished_subject_unauthorized (p : Payload) (s : String) (e : Nat)
    (tDecode tCheck : Nat) (db : List User)
    (hsub : p.sub = some s) (hexp : p.exp = some e)
    (h1 : ¬ e < tDecode) (h2 : ¬ e < tCheck)
    (hgone : ∀ u ∈ db, u.username ≠ s) :
    get_current_user (Token.signed p SECRET_KEY) tDecode tCheck db
      = .error credentials_exception := by
  have hnone : get_user_by_username db s = none := by
    simp only [get_user_by_username, List.find?_eq_none]
    intro u hu
    simpa using hgone u hu
  simp [get_current_user, joseDecode, hsub, hexp, h1, h2, hnone]

/-- Witness for C5: a correctly signed unexpired token for the deleted
subject bob is rejected against the directory containing only alice. -/
theorem vanished_subject_unauthorized_witness :
    get_current_user (Token.signed ⟨some "bob", some 100⟩ SECRET_KEY) 50 60
        [aliceUser]
      = .error credentials_exception :=
  vanished_subject_unauthorized ⟨some "bob", some 100⟩ "bob" 100 50 60
    [aliceUser] (by decide) (by decide) (by decide) (by decide)
    (by intro u hu; simp [aliceUser] at hu; simp [hu])

/-- Claim C6: a token signed with a secret different from the configured
one is rejected by the decoder as malformed (signature mismatch), and
identity resolution maps this to the 401 credentials_exception — it never
returns an authenticated subject. -/
theorem wrong_secret_rejected (p : Payload) (secret : String)
    (tDecode tCheck : Nat) (db : List User) (h : secret ≠ SECRET_KEY) :
    joseDecode (Token.signed p secret) SECRET_KEY tDecode
      = .error JoseError.malformed
    ∧ get_current_user (Token.signed p secret) tDecode tCheck db
      = .error credentials_exception := by
  constructor
  · simp [joseDecode, h]
  · simp [get_current_user, joseDecode, h]

/-- Witness for C6: a token for alice signed with an attacker key is
rejected even though its claims are valid and alice exists. -/
theorem wrong_secret_rejected_witness :
    joseDecode (Token.signed ⟨some "alice", some 100⟩ "attacker_key")
        SECRET_KEY 0
      = .error JoseError.malformed
    ∧ get_current_user (Token.signed ⟨some "alice", some 100⟩ "attacker_key")
        0 0 [aliceUser]
      = .error credentials_exception :=
  wrong_secret_rejected ⟨some "alice", some 100⟩ "attacker_key" 0 0
    [aliceUser] (by decide)

/-- Witness for C8 at concrete plaintexts. -/
theorem hash_verify_roundtrip_witness :
    verify_password "pw123" (get_password_hash 7 "pw123") = true
    ∧ ("pw123" ≠ "other" ∧
        verify_password "pw123" (get_password_hash 9 "other") = false) :=
  ⟨(hash_verify_roundtrip "pw123" "pw123" "other" 7 9).1,
   by decide,
   (hash_verify_roundtrip "pw123" "pw123" "other" 7 9).2 (by decide)⟩

/-- A concrete expense row owned by user id 2, used by closed witness
statements. -/
def bobExpense : Expense :=
  ⟨10, 2, 5, "Food", none, 0⟩

/-- A concrete expense row owned by aliceUser (user id 1), used by closed
witness statements. -/
def aliceExpense : Expense :=
  ⟨11, 1, 5, "Food", none, 0⟩

/-- Claim C9: expense operations are scoped to the resolved identity.
Listing returns only serializations of expenses owned by the
authenticated user; deleting or updating an expense that belongs to a
different user (e is the unique row with its id, and its owner is not the
caller) fails with the 404 expense_not_found and returns the expense
table unchanged. -/
theorem expense_user_scoping (u : User) (cat : Option String)
    (expenses : List Expense) (e : Expense) (upd : ExpenseUpdate)
    (he : e ∈ expenses) (hown : e.user_id ≠ u.id)
    (hkey : ∀ x ∈ expenses, x.id = e.id → x = e) :
    (∀ r ∈ get_expenses cat expenses u,
        ∃ x ∈ expenses, x.user_id = u.id ∧ r = ExpenseResponse.from_orm x)
    ∧ delete_expense e.id expenses u = (.error expense_not_found, expenses)
    ∧ update_expense e.id upd expenses u = (.error expense_not_found, expenses) := by
  have hfind : expenses.find? (fun x => x.id == e.id && x.user_id == u.id) = none := by
    rw [List.find?_eq_none]
    intro x hx hpx
    simp only [Bool.and_eq_true, beq_iff_eq] at hpx
    exact hown (hkey x hx hpx.1 ▸ hpx.2)
  refine ⟨?_, ?_, ?_⟩
  · intro r hr
    have hbase : ∃ x ∈ expenses.filter (fun v => v.user_id == u.id),
        r = ExpenseResponse.from_orm x := by
      rcases cat with _ | c
      · simp only [get_expenses, List.mem_map] at hr
        obtain ⟨x, hx, rfl⟩ := hr
        exact ⟨x, hx, rfl⟩
      · simp only [get_expenses] at hr
        split at hr
        · simp only [List.mem_map] at hr
          obtain ⟨x, hx, rfl⟩ := hr
          exact ⟨x, hx, rfl⟩
        · simp only [List.mem_map] at hr
          obtain ⟨x, hx, rfl⟩ := hr
          exact ⟨x, (List.mem_filter.mp hx).1, rfl⟩
    obtain ⟨x, hx, rfl⟩ := hbase
    obtain ⟨hxe, hxu⟩ := List.mem_filter.mp hx
    exact ⟨x, hxe, by simpa using hxu, rfl⟩
  · simp [delete_expense, hfind]
  · simp [update_expense, hfind]

/-- Witness for C9: with the table holding only an expense of user 2,
user alice (id 1) lists nothing, and her delete and update attempts on
that expense return 404 with the table unchanged. -/
theorem expense_user_scoping_witness :
    (∀ r ∈ get_expenses none [bobExpense] aliceUser,
        ∃ x ∈ [bobExpense], x.user_id = aliceUser.id
          ∧ r = ExpenseResponse.from_orm x)
    ∧ delete_expense bobExpense.id [bobExpense] aliceUser
      = (.error expense_not_found, [bobExpense])
    ∧ update_expense bobExpense.id ⟨none, none, none⟩ [bobExpense] aliceUser
      = (.error expense_not_found, [bobExpense]) :=
  expense_user_scoping aliceUser none [bobExpense] bobExpense ⟨none, none, none⟩
    (by decide) (by decide) (by decide)

/-- Claim C10: updating an expense the caller owns overwrites exactly the
non-None fields of the update request: the response serializes the row
with amount, category and description taken from the request when
present and kept otherwise, while id, user_id and date are always
unchanged. -/
theorem update_expense_frame (expense_id : Nat) (upd : ExpenseUpdate)
    (expenses : List Expense) (u : User) (e : Expense)
    (hfind : expenses.find? (fun x => x.id == expense_id && x.user_id == u.id)
      = some e) :
    (update_expense expense_id upd expenses u).1
      = .ok (ExpenseResponse.from_orm (applyExpenseUpdate upd e))
    ∧ (applyExpenseUpdate upd e).id = e.id
    ∧ (applyExpenseUpdate upd e).user_id = e.user_id
    ∧ (applyExpenseUpdate upd e).date = e.date
    ∧ (upd.amount = none → (applyExpenseUpdate upd e).amount = e.amount)
    ∧ (upd.category = none → (applyExpenseUpdate upd e).category = e.category)
    ∧ (upd.description = none →
        (applyExpenseUpdate upd e).description = e.description)
    ∧ (∀ a, upd.amount = some a → (applyExpenseUpdate upd e).amount = a)
    ∧ (∀ c, upd.category = some c → (applyExpenseUpdate upd e).category = c)
    ∧ (∀ d, upd.description = some d →
        (applyExpenseUpdate upd e).description = some d) := by
  refine ⟨by simp [update_expense, hfind], by simp [applyExpenseUpdate],
    by simp [applyExpenseUpdate], by simp [applyExpenseUpdate],
    fun h => by simp [applyExpenseUpdate, h],
    fun h => by simp [applyExpenseUpdate, h],
    fun h => by simp [applyExpenseUpdate, h],
    fun a h => by simp [applyExpenseUpdate, h],
    fun c h => by simp [applyExpenseUpdate, h],
    fun d h => by simp [applyExpenseUpdate, h]⟩

/-- Witness for C10: updating the amount of alice's own expense changes
the amount in the response and keeps every other field. -/
theorem update_expense_frame_witness :
    (update_expense aliceExpense.id ⟨some 7, none, none⟩ [aliceExpense]
        aliceUser).1
      = .ok (ExpenseResponse.from_orm
          (applyExpenseUpdate ⟨some 7, none, none⟩ aliceExpense))
    ∧ (applyExpenseUpdate ⟨some 7, none, none⟩ aliceExpense).id
      = aliceExpense.id
    ∧ (applyExpenseUpdate ⟨some 7, none, none⟩ aliceExpense).user_id
      = aliceExpense.user_id
    ∧ (applyExpenseUpdate ⟨some 7, none, none⟩ aliceExpense).date
      = aliceExpense.date :=
  have h := update_expense_frame aliceExpense.id ⟨some 7, none, none⟩
    [aliceExpense] aliceUser aliceExpense (by decide)
  ⟨h.1, h.2.1, h.2.2.1, h.2.2.2.1⟩

end ExpenseTracker
